import Mathlib

/-!
Verification development for the moler repository extract.

We shallowly embed:
* the `UnixRemote2` device state machine (`src/moler/device/unixremote2.py`):
  its state-hops tables, transition edges, per-edge commands, and the derived
  per-state prompts and newlines;
* the generic Unix failure detection (`src/moler/cmd/unix/genericunix.py`);
* the line-assembly / Sudo-wraps-Pwd command composition exercised by
  `src/test/cmd/unix/test_cmd_sudo.py`;
* the single-shot observer result slot together with
  `NetworkToggleDetector.data_received`
  (`src/examples/layer_3/network_down_detectors_on_tcp_conn_v3.py`).

Parts of moler referenced by the extract but whose source files are not part
of it (the `ConnectionObserver` base class, `textualgeneric.py`, `sudo.py`,
`pwd.py`, the `UnixLocal` / `ProxyPc2` base device layers, the device factory
validation) are modelled from the specification; each such definition carries
a doc comment starting with `Modelled from the spec:`.
-/

namespace Moler

/-! ## Device states (src/moler/device/unixremote2.py, lines 20-25) -/

inductive DevState where
  | NOT_CONNECTED
  | UNIX_LOCAL
  | UNIX_LOCAL_ROOT
  | PROXY_PC
  | UNIX_REMOTE
  | UNIX_REMOTE_ROOT
  deriving DecidableEq, Repr, Fintype

open DevState

/-- `UnixRemote2._prepare_state_hops_with_proxy_pc`
(src/moler/device/unixremote2.py lines 378-416), transcribed entry by entry:
`state_hops[from][target] = next`. -/
def state_hops_with_proxy_pc : DevState → DevState → Option DevState
  | NOT_CONNECTED, UNIX_REMOTE => some UNIX_LOCAL
  | NOT_CONNECTED, PROXY_PC => some UNIX_LOCAL
  | NOT_CONNECTED, UNIX_LOCAL_ROOT => some UNIX_LOCAL
  | NOT_CONNECTED, UNIX_REMOTE_ROOT => some UNIX_LOCAL
  | UNIX_REMOTE, NOT_CONNECTED => some PROXY_PC
  | UNIX_REMOTE, UNIX_LOCAL => some PROXY_PC
  | UNIX_REMOTE, UNIX_LOCAL_ROOT => some PROXY_PC
  | UNIX_LOCAL_ROOT, UNIX_REMOTE => some UNIX_LOCAL
  | UNIX_LOCAL_ROOT, UNIX_REMOTE_ROOT => some UNIX_LOCAL
  | PROXY_PC, NOT_CONNECTED => some UNIX_LOCAL
  | PROXY_PC, UNIX_LOCAL_ROOT => some UNIX_LOCAL
  | PROXY_PC, UNIX_REMOTE_ROOT => some UNIX_REMOTE
  | UNIX_LOCAL, UNIX_REMOTE => some PROXY_PC
  | UNIX_LOCAL, UNIX_REMOTE_ROOT => some PROXY_PC
  | UNIX_REMOTE_ROOT, NOT_CONNECTED => some UNIX_REMOTE
  | UNIX_REMOTE_ROOT, UNIX_LOCAL => some UNIX_REMOTE
  | UNIX_REMOTE_ROOT, UNIX_LOCAL_ROOT => some UNIX_REMOTE
  | UNIX_REMOTE_ROOT, PROXY_PC => some UNIX_REMOTE
  | _, _ => none

/-- `UnixRemote2._prepare_state_hops_without_proxy_pc`
(src/moler/device/unixremote2.py lines 418-448), transcribed entry by entry. -/
def state_hops_without_proxy_pc : DevState → DevState → Option DevState
  | NOT_CONNECTED, UNIX_REMOTE => some UNIX_LOCAL
  | NOT_CONNECTED, UNIX_LOCAL_ROOT => some UNIX_LOCAL
  | NOT_CONNECTED, UNIX_REMOTE_ROOT => some UNIX_LOCAL
  | UNIX_LOCAL, UNIX_REMOTE_ROOT => some UNIX_REMOTE
  | UNIX_LOCAL_ROOT, UNIX_REMOTE => some UNIX_LOCAL
  | UNIX_LOCAL_ROOT, UNIX_REMOTE_ROOT => some UNIX_LOCAL
  | UNIX_REMOTE, NOT_CONNECTED => some UNIX_LOCAL
  | UNIX_REMOTE, UNIX_LOCAL_ROOT => some UNIX_LOCAL
  | UNIX_REMOTE_ROOT, NOT_CONNECTED => some UNIX_REMOTE
  | UNIX_REMOTE_ROOT, UNIX_LOCAL => some UNIX_REMOTE
  | UNIX_REMOTE_ROOT, UNIX_LOCAL_ROOT => some UNIX_REMOTE
  | UNIX_REMOTE_ROOT, PROXY_PC => some UNIX_REMOTE
  | _, _ => none

/-- Modelled from the spec: the base device layers `UnixLocal` and `ProxyPc2`
(their source files are not part of this extract; spec section 4.5 describes the
layering `UnixRemote2 <- ProxyPc2 <- UnixLocal <- TextualDevice` with
configurations deep-merged along the chain) contribute hop entries for
the pairs `UNIX_LOCAL_ROOT -> NOT_CONNECTED` and `UNIX_LOCAL_ROOT -> PROXY_PC`,
both routed through `UNIX_LOCAL` (the only neighbour of `UNIX_LOCAL_ROOT`). -/
def base_state_hops_with_proxy_pc : DevState → DevState → Option DevState
  | UNIX_LOCAL_ROOT, NOT_CONNECTED => some UNIX_LOCAL
  | UNIX_LOCAL_ROOT, PROXY_PC => some UNIX_LOCAL
  | _, _ => none

/-- Modelled from the spec: the `UnixLocal` base layer contributes the hop
entry `UNIX_LOCAL_ROOT -> NOT_CONNECTED` via `UNIX_LOCAL` (see
`base_state_hops_with_proxy_pc`). -/
def base_state_hops_without_proxy_pc : DevState → DevState → Option DevState
  | UNIX_LOCAL_ROOT, NOT_CONNECTED => some UNIX_LOCAL
  | _, _ => none

/-- The deep-merged hop table of the device with proxy: the derived class's
entries take precedence, the base layers fill the remaining pairs. -/
def merged_hops_with_proxy_pc (s t : DevState) : Option DevState :=
  match state_hops_with_proxy_pc s t with
  | some n => some n
  | none => base_state_hops_with_proxy_pc s t

/-- The deep-merged hop table of the device without proxy. -/
def merged_hops_without_proxy_pc (s t : DevState) : Option DevState :=
  match state_hops_without_proxy_pc s t with
  | some n => some n
  | none => base_state_hops_without_proxy_pc s t

/-- `UnixRemote2._prepare_transitions_with_proxy_pc`
(src/moler/device/unixremote2.py lines 242-276): the direct edges the derived
class declares. -/
def transitions_with_proxy_pc : DevState → DevState → Bool
  | PROXY_PC, UNIX_REMOTE => true
  | UNIX_REMOTE, PROXY_PC => true
  | UNIX_REMOTE, UNIX_REMOTE_ROOT => true
  | UNIX_REMOTE_ROOT, UNIX_REMOTE => true
  | _, _ => false

/-- `UnixRemote2._prepare_transitions_without_proxy_pc`
(src/moler/device/unixremote2.py lines 278-312). -/
def transitions_without_proxy_pc : DevState → DevState → Bool
  | UNIX_REMOTE, UNIX_LOCAL => true
  | UNIX_REMOTE, UNIX_REMOTE_ROOT => true
  | UNIX_LOCAL, UNIX_REMOTE => true
  | UNIX_REMOTE_ROOT, UNIX_REMOTE => true
  | _, _ => false

/-- Modelled from the spec: direct edges contributed by the base layers
(`TextualDevice`/`UnixLocal`: `NOT_CONNECTED <-> UNIX_LOCAL`,
`UNIX_LOCAL <-> UNIX_LOCAL_ROOT`; `ProxyPc2`: `UNIX_LOCAL <-> PROXY_PC`,
see also the `CONNECTION_HOPS` example in the `UnixRemote2` docstring,
src/moler/device/unixremote2.py lines 51-58). -/
def base_transitions_with_proxy_pc : DevState → DevState → Bool
  | NOT_CONNECTED, UNIX_LOCAL => true
  | UNIX_LOCAL, NOT_CONNECTED => true
  | UNIX_LOCAL, UNIX_LOCAL_ROOT => true
  | UNIX_LOCAL_ROOT, UNIX_LOCAL => true
  | UNIX_LOCAL, PROXY_PC => true
  | PROXY_PC, UNIX_LOCAL => true
  | _, _ => false

/-- Modelled from the spec: direct edges contributed by the base layers when no
proxy state is configured (`NOT_CONNECTED <-> UNIX_LOCAL`,
`UNIX_LOCAL <-> UNIX_LOCAL_ROOT`). -/
def base_transitions_without_proxy_pc : DevState → DevState → Bool
  | NOT_CONNECTED, UNIX_LOCAL => true
  | UNIX_LOCAL, NOT_CONNECTED => true
  | UNIX_LOCAL, UNIX_LOCAL_ROOT => true
  | UNIX_LOCAL_ROOT, UNIX_LOCAL => true
  | _, _ => false

/-- All direct edges of the device with proxy (derived plus base layers). -/
def edges_with_proxy_pc (s t : DevState) : Bool :=
  transitions_with_proxy_pc s t || base_transitions_with_proxy_pc s t

/-- All direct edges of the device without proxy (derived plus base layers). -/
def edges_without_proxy_pc (s t : DevState) : Bool :=
  transitions_without_proxy_pc s t || base_transitions_without_proxy_pc s t

/-- The state-machine router (spec section 4.5): the next state on the way from
`s` to `t` is the hop-table entry when one exists, otherwise the direct edge
`s -> t` when one exists. -/
def next_hop (hops : DevState → DevState → Option DevState)
    (edges : DevState → DevState → Bool) (s t : DevState) : Option DevState :=
  match hops s t with
  | some n => some n
  | none => if edges s t then some t else none

/-- The router of the with-proxy configuration. -/
def next_hop_with_proxy_pc : DevState → DevState → Option DevState :=
  next_hop merged_hops_with_proxy_pc edges_with_proxy_pc

/-- The router of the without-proxy configuration. -/
def next_hop_without_proxy_pc : DevState → DevState → Option DevState :=
  next_hop merged_hops_without_proxy_pc edges_without_proxy_pc

/-- Iteratively follow `np` from `cur` towards `target` for at most `fuel`
steps; `true` iff `target` is reached and no intermediate state equals
`banned`. -/
def follow_reaches (np : DevState → DevState → Option DevState)
    (banned target : DevState) : Nat → DevState → Bool
  | 0, cur => cur == target
  | fuel + 1, cur =>
    if cur == target then true
    else
      match np cur target with
      | none => false
      | some n => !(n == banned) && follow_reaches np banned target fuel n

/-- The states of the without-proxy state machine (the `PROXY_PC` state exists
only in the with-proxy configuration). -/
def without_proxy_states : List DevState :=
  [NOT_CONNECTED, UNIX_LOCAL, UNIX_LOCAL_ROOT, UNIX_REMOTE, UNIX_REMOTE_ROOT]

/-- `goto_state` under the assumption that every transition command succeeds
(spec section 4.5 transition execution): repeatedly step to `next_hop` until
the target is reached; with no hop available the state is left unchanged. -/
def goto_state (np : DevState → DevState → Option DevState) :
    Nat → DevState → DevState → DevState
  | 0, s, _ => s
  | fuel + 1, s, t =>
    if s == t then s
    else
      match np s t with
      | none => s
      | some n => goto_state np fuel n t

/-- Per-edge `execute_command` selectors of the with-proxy configuration
(`UnixRemote2._get_default_sm_configuration_with_proxy_pc`,
src/moler/device/unixremote2.py lines 126-182). -/
def edge_command_with_proxy_pc : DevState → DevState → Option String
  | PROXY_PC, UNIX_REMOTE => some "ssh"
  | UNIX_REMOTE, PROXY_PC => some "exit"
  | UNIX_REMOTE, UNIX_REMOTE_ROOT => some "su"
  | UNIX_REMOTE_ROOT, UNIX_REMOTE => some "exit"
  | _, _ => none

/-- Modelled from the spec: edge commands contributed by the base layers; in
particular `UNIX_LOCAL -> PROXY_PC` executes `ssh` (spec scenario S5 and the
`CONNECTION_HOPS` example in the `UnixRemote2` docstring,
src/moler/device/unixremote2.py lines 51-58), `PROXY_PC -> UNIX_LOCAL`
executes `exit`. -/
def base_edge_command_with_proxy_pc : DevState → DevState → Option String
  | UNIX_LOCAL, PROXY_PC => some "ssh"
  | PROXY_PC, UNIX_LOCAL => some "exit"
  | _, _ => none

/-- The merged per-edge command table of the device with proxy. -/
def full_edge_command_with_proxy_pc (s t : DevState) : Option String :=
  match edge_command_with_proxy_pc s t with
  | some c => some c
  | none => base_edge_command_with_proxy_pc s t

/-- The sequence of `(from, to, command)` transitions a `goto_state` journey
executes when every transition succeeds (spec section 4.5). -/
def goto_transitions (np : DevState → DevState → Option DevState)
    (cmd : DevState → DevState → Option String) :
    Nat → DevState → DevState → Option (List (DevState × DevState × String))
  | 0, s, t => if s == t then some [] else none
  | fuel + 1, s, t =>
    if s == t then some []
    else
      match np s t with
      | none => none
      | some n =>
        match cmd s n with
        | none => none
        | some c =>
          match goto_transitions np cmd fuel n t with
          | none => none
          | some rest => some ((s, n, c) :: rest)

/-- `UnixRemote2.__init__` (src/moler/device/unixremote2.py lines 106-124):
the initial state is the given one, defaulting to `UNIX_REMOTE` when none is
given. -/
def unixRemote2_initial_state (given : Option DevState) : DevState :=
  match given with
  | some st => st
  | none => UNIX_REMOTE

/-! ## Text helpers shared by the observer and command models -/

/-- `true` iff `sub` occurs as a contiguous run inside the character list. -/
def sub_list_occurs (sub : List Char) : List Char → Bool
  | [] => sub.isEmpty
  | c :: rest => sub.isPrefixOf (c :: rest) || sub_list_occurs sub rest

/-- Substring containment on strings (the semantics of the Python `in`
operator and of a regex alternation of literal fragments). -/
def contains_text (s pat : String) : Bool :=
  sub_list_occurs pat.data s.data

/-- `GenericUnix._re_fail` together with `GenericUnix.is_failure_indication`
(src/moler/cmd/unix/genericunix.py lines 16 and 30-31): the failure regex is an
alternation of three literal fragments, so a line matches iff it contains one
of them. -/
def is_failure_indication (line : String) : Bool :=
  contains_text line "command not found" ||
    contains_text line "No such file or directory" ||
    contains_text line "running it may require superuser privileges"

/-! ## The single-shot observer result slot and NetworkToggleDetector (C1) -/

inductive SlotValue where
  | value (tstamp : Nat)
  | exception (msg : String)
  deriving DecidableEq, Repr

/-- Modelled from the spec: `ConnectionObserver.set_result`
(connection_observer.py is not part of this extract; spec sections 3 and 4.2:
the result slot is a protected single-shot cell, the first set wins and later
calls are no-ops). -/
def set_result (slot : Option SlotValue) (tstamp : Nat) : Option SlotValue :=
  match slot with
  | none => some (SlotValue.value tstamp)
  | some s => some s

/-- Modelled from the spec: `ConnectionObserver.set_exception`, single-shot
like `set_result` (spec section 4.2). -/
def set_exception (slot : Option SlotValue) (msg : String) : Option SlotValue :=
  match slot with
  | none => some (SlotValue.exception msg)
  | some s => some s

structure NetworkToggleDetector where
  detect_pattern : String
  slot : Option SlotValue
  deriving DecidableEq, Repr

/-- `ConnectionObserver.done()`: the observer is done iff its slot is set. -/
def NetworkToggleDetector.done (o : NetworkToggleDetector) : Bool :=
  o.slot.isSome

/-- `NetworkToggleDetector.data_received`
(src/examples/layer_3/network_down_detectors_on_tcp_conn_v3.py lines 150-157):
only when not yet done and the pattern occurs in the data, record the current
time as the result. -/
def NetworkToggleDetector.data_received (o : NetworkToggleDetector)
    (data : String) (now : Nat) : NetworkToggleDetector :=
  if !o.done then
    if contains_text data o.detect_pattern then
      { o with slot := set_result o.slot now }
    else o
  else o

/-- A call arriving at the observer on any path: a parser result, a detected
failure / timeout / cancellation, or an inbound data chunk. -/
inductive ObsCall where
  | setRes (tstamp : Nat)
  | setExc (msg : String)
  | dataRecv (data : String) (now : Nat)

/-- Apply one call to the observer. -/
def apply_call (o : NetworkToggleDetector) : ObsCall → NetworkToggleDetector
  | ObsCall.setRes t => { o with slot := set_result o.slot t }
  | ObsCall.setExc m => { o with slot := set_exception o.slot m }
  | ObsCall.dataRecv d now => o.data_received d now

/-- Apply a sequence of calls to the observer. -/
def apply_calls (o : NetworkToggleDetector) (cs : List ObsCall) :
    NetworkToggleDetector :=
  cs.foldl apply_call o

/-- A concrete already-completed network-down detector. -/
def c1_done_detector : NetworkToggleDetector :=
  { detect_pattern := "Network is unreachable",
    slot := some (SlotValue.value 3) }

/-! ## Line assembly and the Sudo-wraps-Pwd composition (C2, C5, C6) -/

/-- Modelled from the spec: the Python `str.splitlines(keepends=True)` used by
the textual command base to cut an inbound chunk at line terminators while
keeping them (`textualgeneric.py` is not part of this extract; spec section
4.1, line assembly). `cur` holds the reversed characters of the line being
accumulated. -/
def split_lines_go (cur : List Char) : List Char → List (List Char)
  | [] => if cur.isEmpty then [] else [cur.reverse]
  | '\r' :: '\n' :: rest => (('\n' :: '\r' :: cur).reverse) :: split_lines_go [] rest
  | '\r' :: rest => (('\r' :: cur).reverse) :: split_lines_go [] rest
  | '\n' :: rest => (('\n' :: cur).reverse) :: split_lines_go [] rest
  | c :: rest => split_lines_go (c :: cur) rest

/-- A line chunk is a full line iff it ends with a line terminator. -/
def ends_with_newline (line : List Char) : Bool :=
  match line.getLast? with
  | some '\n' => true
  | some '\r' => true
  | _ => false

/-- Remove trailing line-terminator characters from a full line. -/
def strip_newline_chars (line : List Char) : List Char :=
  (line.reverse.dropWhile (fun c => c == '\n' || c == '\r')).reverse

/-- Modelled from the spec: the default unix prompt recognition of the textual
command base (the pattern accepts any line without a left angle bracket whose
last non-blank character is one of the shell prompt enders). -/
def matches_default_prompt (line : String) : Bool :=
  let t := (line.data.reverse.dropWhile (fun c => c == ' ')).reverse
  !line.data.contains '<' &&
    match t.getLast? with
    | some c => c == '$' || c == '%' || c == '#' || c == '>' || c == '~' || c == '|'
    | none => false

/-- The structured result of a `pwd` command (the three keys of the dict the
test fixture expects). -/
structure PwdResult where
  current_path : String
  full_path : String
  path_to_current : String
  deriving DecidableEq, Repr

/-- A command observer outcome: a structured result or a command failure. -/
inductive CmdOutcome where
  | value (r : Option PwdResult)
  | failure (msg : String)
  deriving DecidableEq, Repr

/-- Modelled from the spec: single-shot `set_result` on a command observer
(spec section 4.2: the first transition wins, later calls are no-ops). -/
def cmd_set_result (slot : Option CmdOutcome) (r : Option PwdResult) :
    Option CmdOutcome :=
  match slot with
  | none => some (CmdOutcome.value r)
  | some s => some s

/-- Modelled from the spec: single-shot `set_exception` on a command observer. -/
def cmd_set_exception (slot : Option CmdOutcome) (msg : String) :
    Option CmdOutcome :=
  match slot with
  | none => some (CmdOutcome.failure msg)
  | some s => some s

/-- The state of the embedded `Pwd` command: its accumulated structured result,
its single-shot slot, and the record of `on_new_line` calls it received (the
quantity the forwarding test observes via mock). -/
structure PwdState where
  current_ret : Option PwdResult
  slot : Option CmdOutcome
  on_new_line_calls : List (String × Bool)
  deriving DecidableEq, Repr

/-- A freshly created `Pwd` command. -/
def fresh_pwd : PwdState :=
  { current_ret := none, slot := none, on_new_line_calls := [] }

/-- Modelled from the spec: the `Pwd` line pattern (pwd.py is not part of this
extract) — a full line with a slash splits at its last slash into
`path_to_current` and `current_path`, the whole line being `full_path`. -/
def parse_pwd_line (line : String) : Option PwdResult :=
  let rev := line.data.reverse
  if rev.contains '/' then
    let after := rev.takeWhile (fun c => !(c == '/'))
    let before := (rev.dropWhile (fun c => !(c == '/'))).drop 1
    some { current_path := String.mk after.reverse,
           full_path := line,
           path_to_current := String.mk before.reverse }
  else none

/-- `Pwd.on_new_line`. The pwd-specific parse is modelled from the spec; the
failure check is `GenericUnix.on_new_line`
(src/moler/cmd/unix/genericunix.py lines 18-28: on a full line matching the
failure pattern, record a `CommandFailure` exception, then delegate to the
base class); the base class completes with the accumulated result when the
expected prompt is seen. -/
def pwd_on_new_line (st : PwdState) (line : String) (is_full_line : Bool) :
    PwdState :=
  let st := { st with on_new_line_calls := st.on_new_line_calls ++ [(line, is_full_line)] }
  let st :=
    match parse_pwd_line line with
    | some r => if is_full_line then { st with current_ret := some r } else st
    | none => st
  let st :=
    if is_full_line && is_failure_indication line then
      { st with slot := cmd_set_exception st.slot ("command failed in line " ++ line) }
    else st
  if matches_default_prompt line then
    { st with slot := cmd_set_result st.slot st.current_ret }
  else st

/-- The state of the outer `Sudo` command wrapping a `Pwd`. -/
structure SudoState where
  pwd : PwdState
  sent_password : Bool
  slot : Option CmdOutcome
  deriving DecidableEq, Repr

/-- Modelled from the spec: `Sudo.on_new_line` (sudo.py is not part of this
extract; spec section 4.4, composition): the outer command handles its own
password prompt and forwards every other line to the embedded command's
parser; being a `GenericUnix` it also runs the failure check of
src/moler/cmd/unix/genericunix.py on its own slot; on its expected prompt it
completes with the embedded command's outcome. -/
def sudo_on_new_line (st : SudoState) (line : String) (is_full_line : Bool) :
    SudoState :=
  if contains_text line "[sudo] password for" then
    { st with sent_password := true }
  else
    let st := { st with pwd := pwd_on_new_line st.pwd line is_full_line }
    let st :=
      if is_full_line && is_failure_indication line then
        { st with slot := cmd_set_exception st.slot ("command failed in line " ++ line) }
      else st
    if matches_default_prompt line then
      match st.pwd.slot with
      | some (CmdOutcome.value r) => { st with slot := cmd_set_result st.slot r }
      | some (CmdOutcome.failure m) => { st with slot := cmd_set_exception st.slot m }
      | none => st
    else st

/-- A running outer command: its state, the buffered partial line, and whether
the command echo has been consumed. -/
structure SudoRun where
  sudo_st : SudoState
  stored_chunk : Option (List Char)
  cmd_output_started : Bool
  deriving DecidableEq, Repr

/-- Modelled from the spec: the line assembly of the textual command base
(spec section 4.1): each cut chunk is glued to the buffered partial line; a
terminated line is stripped and handed to `on_new_line` with
`is_full_line = true`, an unterminated one is buffered and handed with
`is_full_line = false`; until the command echo has been seen, full lines are
only checked against the echo and are not treated as output. -/
def process_line_chunk (command_string : String) (run : SudoRun)
    (chunk : List Char) : SudoRun :=
  let line :=
    match run.stored_chunk with
    | some prev => prev ++ chunk
    | none => chunk
  if ends_with_newline line then
    let text := String.mk (strip_newline_chars line)
    if run.cmd_output_started then
      { run with sudo_st := sudo_on_new_line run.sudo_st text true, stored_chunk := none }
    else if contains_text text command_string then
      { run with cmd_output_started := true, stored_chunk := none }
    else { run with stored_chunk := none }
  else
    let buffered := { run with stored_chunk := some line }
    if run.cmd_output_started then
      { buffered with sudo_st := sudo_on_new_line buffered.sudo_st (String.mk line) false }
    else buffered

/-- One `data_received` call on the outer command: cut the chunk at line
terminators and process each piece. -/
def sudo_data_received (command_string : String) (run : SudoRun)
    (data : String) : SudoRun :=
  (split_lines_go [] data.data).foldl (process_line_chunk command_string) run

/-- Modelled from the spec: running a `Sudo` wrapping an embedded command over
a sequence of inbound chunks. Validation at start: reusing an
already-completed embedded command is an error (spec section 4.4 and scenario
S4, the single-shot observer rule), reported as a command failure before any
output is processed. -/
def run_sudo (inner : PwdState) (chunks : List String) : SudoRun :=
  let start : SudoRun :=
    { sudo_st := { pwd := inner, sent_password := false, slot := none },
      stored_chunk := none, cmd_output_started := false }
  if inner.slot.isSome then
    { start with sudo_st := { start.sudo_st with
        slot := some (CmdOutcome.failure "Not allowed to run again the embedded command (embedded command is done)") } }
  else chunks.foldl (sudo_data_received "sudo pwd") start

/-- The chunk sequence of scenario S2
(`test_sudo_forwards_nonsudo_specific_connection_data_into_embedded_command`,
src/test/cmd/unix/test_cmd_sudo.py lines 104-111). -/
def s2_chunks : List String :=
  ["user@client:~/moler$ sudo pwd", "\r\n", "[sudo] password for user:",
   "\r\n", "/home/user/moler", "\r\n", "ute@debdev:~/moler$"]

/-- The output of scenario S3 (`command_output_command_not_found`,
src/test/cmd/unix/test_cmd_sudo.py lines 169-175). -/
def s3_output : String :=
  "sudo pwd\n[sudo] password for ute: \nsudo: pwd: command not found\nute@debdev:~/moler$ "

/-- The embedded `Pwd` after a successful S2 run (it has completed). -/
def s2_completed_pwd : PwdState :=
  (run_sudo fresh_pwd s2_chunks).sudo_st.pwd

/-- The expected S2 result dict (src/test/cmd/unix/test_cmd_sudo.py lines
135-139). -/
def s2_expected_result : PwdResult :=
  { current_path := "moler", full_path := "/home/user/moler",
    path_to_current := "/home/user" }

/-! ## Device-factory validation of unix-local states over sshshell (C7) -/

/-- Modelled from the spec: the device factory validation of scenario S6 (the
factory source is not part of this extract; spec sections 8/9: a device whose
raw io is the ssh-shell kind has no unix-local states, so requesting
`UNIX_LOCAL` or `UNIX_LOCAL_ROOT` as initial state fails synchronously at
construction, before any I/O, with a ValueError naming the io and the
terminal requirement). -/
def validate_initial_state (io_type io_name dev_name initial_state : String) :
    Except String Unit :=
  if (initial_state == "UNIX_LOCAL" || initial_state == "UNIX_LOCAL_ROOT") &&
      !(io_type == "terminal") then
    Except.error ("Device " ++ dev_name ++
      " has no UNIX_LOCAL/UNIX_LOCAL_ROOT states since it uses following io: " ++
      io_name ++ ". You need io of type \"terminal\" to have unix-local states.")
  else
    Except.ok ()

/-- The message produced for a `UnixRemote2` over the threaded ssh-shell io. -/
def sshshell_unix_local_error_msg : String :=
  "Device UX_REMOTE has no UNIX_LOCAL/UNIX_LOCAL_ROOT states since it uses following io: ThreadedSshShell. You need io of type \"terminal\" to have unix-local states."

/-! ## Derived per-state prompts and newlines (C8) -/

/-- The `command_params` of one transition edge that matter here. -/
structure EdgeParams where
  expected_prompt : Option String
  target_newline : String
  deriving DecidableEq, Repr

/-- The with-proxy `CONNECTION_HOPS` entries of the device
(`UnixRemote2._get_default_sm_configuration_with_proxy_pc`,
src/moler/device/unixremote2.py lines 126-182), one field per edge. -/
structure HopsConfigWithProxy where
  proxy_to_remote : EdgeParams
  remote_to_proxy : EdgeParams
  remote_to_root : EdgeParams
  root_to_remote : EdgeParams
  deriving DecidableEq, Repr

/-- The default with-proxy configuration: `expected_prompt` is a required
user parameter on the `PROXY_PC -> UNIX_REMOTE` and `UNIX_REMOTE -> PROXY_PC`
edges (hence empty by default) and defaulted on the other two; every
`target_newline` defaults to a line feed
(src/moler/device/unixremote2.py lines 132-181). -/
def default_config_with_proxy : HopsConfigWithProxy :=
  { proxy_to_remote := { expected_prompt := none, target_newline := "\n" },
    remote_to_proxy := { expected_prompt := none, target_newline := "\n" },
    remote_to_root := { expected_prompt := some "remote_root_prompt", target_newline := "\n" },
    root_to_remote := { expected_prompt := some "remote_user_prompt", target_newline := "\n" } }

/-- Overlay the user-supplied required parameters (spec section 4.5,
configuration merging; the `CONNECTION_HOPS` example in the `UnixRemote2`
docstring supplies `unix_remote_prompt` and `proxy_pc_prompt`). -/
def overlay_user_with_proxy (cfg : HopsConfigWithProxy)
    (unix_remote_prompt proxy_pc_prompt : String) : HopsConfigWithProxy :=
  { cfg with
    proxy_to_remote := { cfg.proxy_to_remote with expected_prompt := some unix_remote_prompt },
    remote_to_proxy := { cfg.remote_to_proxy with expected_prompt := some proxy_pc_prompt } }

/-- `UnixRemote2._configure_state_machine`, with-proxy branch
(src/moler/device/unixremote2.py lines 458-461): the prompt of the
`UNIX_REMOTE_ROOT -> UNIX_REMOTE` edge is overwritten with the prompt of the
`PROXY_PC -> UNIX_REMOTE` edge. -/
def configure_state_machine_with_proxy (cfg : HopsConfigWithProxy) :
    HopsConfigWithProxy :=
  { cfg with root_to_remote :=
      { cfg.root_to_remote with expected_prompt := cfg.proxy_to_remote.expected_prompt } }

/-- `UnixRemote2._prepare_state_prompts_with_proxy_pc`
(src/moler/device/unixremote2.py lines 314-327). -/
def state_prompt_with_proxy (cfg : HopsConfigWithProxy) :
    DevState → Option String
  | UNIX_REMOTE => cfg.proxy_to_remote.expected_prompt
  | UNIX_REMOTE_ROOT => cfg.remote_to_root.expected_prompt
  | _ => none

/-- `UnixRemote2._prepare_newline_chars_with_proxy_pc`
(src/moler/device/unixremote2.py lines 346-359). -/
def newline_char_with_proxy (cfg : HopsConfigWithProxy) :
    DevState → Option String
  | UNIX_REMOTE => some cfg.proxy_to_remote.target_newline
  | UNIX_REMOTE_ROOT => some cfg.remote_to_root.target_newline
  | _ => none

/-- The without-proxy `CONNECTION_HOPS` entries of the device
(`UnixRemote2._get_default_sm_configuration_without_proxy_pc`,
src/moler/device/unixremote2.py lines 184-240), one field per edge. -/
structure HopsConfigWithoutProxy where
  local_to_remote : EdgeParams
  remote_to_local : EdgeParams
  remote_to_root : EdgeParams
  root_to_remote : EdgeParams
  deriving DecidableEq, Repr

/-- The default without-proxy configuration
(src/moler/device/unixremote2.py lines 190-239). -/
def default_config_without_proxy : HopsConfigWithoutProxy :=
  { local_to_remote := { expected_prompt := none, target_newline := "\n" },
    remote_to_local := { expected_prompt := some "^moler_bash#", target_newline := "\n" },
    remote_to_root := { expected_prompt := some "remote_root_prompt", target_newline := "\n" },
    root_to_remote := { expected_prompt := some "remote_user_prompt", target_newline := "\n" } }

/-- Overlay the user-supplied required `expected_prompt` of the
`UNIX_LOCAL -> UNIX_REMOTE` edge. -/
def overlay_user_without_proxy (cfg : HopsConfigWithoutProxy)
    (unix_remote_prompt : String) : HopsConfigWithoutProxy :=
  { cfg with
    local_to_remote := { cfg.local_to_remote with expected_prompt := some unix_remote_prompt } }

/-- `UnixRemote2._configure_state_machine`, without-proxy branch
(src/moler/device/unixremote2.py lines 462-464): the prompt of the
`UNIX_REMOTE_ROOT -> UNIX_REMOTE` edge is overwritten with the prompt of the
`UNIX_LOCAL -> UNIX_REMOTE` edge. -/
def configure_state_machine_without_proxy (cfg : HopsConfigWithoutProxy) :
    HopsConfigWithoutProxy :=
  { cfg with root_to_remote :=
      { cfg.root_to_remote with expected_prompt := cfg.local_to_remote.expected_prompt } }

/-- `UnixRemote2._prepare_state_prompts_without_proxy_pc`
(src/moler/device/unixremote2.py lines 329-344). -/
def state_prompt_without_proxy (cfg : HopsConfigWithoutProxy) :
    DevState → Option String
  | UNIX_REMOTE => cfg.local_to_remote.expected_prompt
  | UNIX_REMOTE_ROOT => cfg.remote_to_root.expected_prompt
  | UNIX_LOCAL => cfg.remote_to_local.expected_prompt
  | _ => none

/-- `UnixRemote2._prepare_newline_chars_without_proxy_pc`
(src/moler/device/unixremote2.py lines 361-376). -/
def newline_char_without_proxy (cfg : HopsConfigWithoutProxy) :
    DevState → Option String
  | UNIX_REMOTE => some cfg.local_to_remote.target_newline
  | UNIX_LOCAL => some cfg.remote_to_local.target_newline
  | UNIX_REMOTE_ROOT => some cfg.remote_to_root.target_newline
  | _ => none

/-- The effective with-proxy configuration for given user-supplied prompts:
defaults, then the user overlay, then `_configure_state_machine`. -/
def effective_config_with_proxy (unix_remote_prompt proxy_pc_prompt : String) :
    HopsConfigWithProxy :=
  configure_state_machine_with_proxy
    (overlay_user_with_proxy default_config_with_proxy unix_remote_prompt proxy_pc_prompt)

/-- The effective without-proxy configuration for a given user-supplied
`UNIX_REMOTE` prompt. -/
def effective_config_without_proxy (unix_remote_prompt : String) :
    HopsConfigWithoutProxy :=
  configure_state_machine_without_proxy
    (overlay_user_without_proxy default_config_without_proxy unix_remote_prompt)

/-! ## Theorems -/

theorem apply_call_of_set (o : NetworkToggleDetector) (c : ObsCall)
    (v : SlotValue) (h : o.slot = some v) : apply_call o c = o := by
  cases o
  cases c with
  | setRes t => simp_all [apply_call, set_result]
  | setExc m => simp_all [apply_call, set_exception]
  | dataRecv d now =>
      simp_all [apply_call, NetworkToggleDetector.data_received,
        NetworkToggleDetector.done]

theorem apply_calls_of_set (o : NetworkToggleDetector) (cs : List ObsCall)
    (v : SlotValue) (h : o.slot = some v) : apply_calls o cs = o := by
  induction cs with
  | nil => rfl
  | cons c cs ih =>
      show apply_calls (apply_call o c) cs = o
      rw [apply_call_of_set o c v h, ih]

/-- C1: the observer result slot is single-shot. Once the slot holds a value
or an exception, any further sequence of `set_result` / `set_exception` /
`data_received` calls leaves the observer unchanged; and from an empty slot
the first `set_result` (resp. `set_exception`) wins against everything that
follows. -/
theorem observer_result_slot_single_shot :
    ∀ (o : NetworkToggleDetector) (cs : List ObsCall),
      (∀ v : SlotValue, o.slot = some v → apply_calls o cs = o) ∧
      (∀ t : Nat, o.slot = none →
        (apply_calls o (ObsCall.setRes t :: cs)).slot =
          some (SlotValue.value t)) ∧
      (∀ m : String, o.slot = none →
        (apply_calls o (ObsCall.setExc m :: cs)).slot =
          some (SlotValue.exception m)) := by
  intro o cs
  refine ⟨fun v h => apply_calls_of_set o cs v h, fun t h => ?_, fun m h => ?_⟩
  · show (apply_calls (apply_call o (ObsCall.setRes t)) cs).slot = _
    rw [apply_calls_of_set (apply_call o (ObsCall.setRes t)) cs
      (SlotValue.value t) (by simp [apply_call, set_result, h])]
    simp [apply_call, set_result, h]
  · show (apply_calls (apply_call o (ObsCall.setExc m)) cs).slot = _
    rw [apply_calls_of_set (apply_call o (ObsCall.setExc m)) cs
      (SlotValue.exception m) (by simp [apply_call, set_exception, h])]
    simp [apply_call, set_exception, h]

/-- Witness for C1: a completed detector ignores a later matching data chunk
and a later `set_exception`. -/
theorem observer_result_slot_single_shot_witness :
    apply_calls c1_done_detector
      [ObsCall.dataRecv "ping: sendmsg: Network is unreachable" 7,
       ObsCall.setExc "too late"] = c1_done_detector :=
  (observer_result_slot_single_shot c1_done_detector
    [ObsCall.dataRecv "ping: sendmsg: Network is unreachable" 7,
     ObsCall.setExc "too late"]).1 (SlotValue.value 3) rfl

/-- C3: for every pair of states `(s, t)` of a `UnixRemote2` device, in the
with-proxy configuration and (over its state set) in the without-proxy
configuration, iteratively following `next_hop` from `s` reaches `t` in
finitely many (at most 6) steps without revisiting `s`. -/
theorem unixRemote2_hops_reach_target :
    ∀ s t : DevState,
      follow_reaches next_hop_with_proxy_pc s t 6 s = true ∧
      (s ∈ without_proxy_states → t ∈ without_proxy_states →
        follow_reaches next_hop_without_proxy_pc s t 6 s = true) := by
  decide

/-- Witness for C3 at the concrete pair `(NOT_CONNECTED, UNIX_REMOTE_ROOT)`. -/
theorem unixRemote2_hops_reach_target_witness :
    NOT_CONNECTED ∈ without_proxy_states ∧
    UNIX_REMOTE_ROOT ∈ without_proxy_states ∧
    follow_reaches next_hop_without_proxy_pc NOT_CONNECTED UNIX_REMOTE_ROOT 6
      NOT_CONNECTED = true :=
  ⟨by decide, by decide,
    (unixRemote2_hops_reach_target NOT_CONNECTED UNIX_REMOTE_ROOT).2
      (by decide) (by decide)⟩

/-- C4: a `UnixRemote2` device with proxy, at `UNIX_LOCAL`, on
`goto_state(UNIX_REMOTE_ROOT)` executes exactly
`UNIX_LOCAL -> PROXY_PC` (ssh), `PROXY_PC -> UNIX_REMOTE` (ssh),
`UNIX_REMOTE -> UNIX_REMOTE_ROOT` (su), in that order, and ends in
`UNIX_REMOTE_ROOT`. -/
theorem unixRemote2_goto_remote_root_via_proxy :
    goto_transitions next_hop_with_proxy_pc full_edge_command_with_proxy_pc 6
        UNIX_LOCAL UNIX_REMOTE_ROOT =
      some [(UNIX_LOCAL, PROXY_PC, "ssh"),
            (PROXY_PC, UNIX_REMOTE, "ssh"),
            (UNIX_REMOTE, UNIX_REMOTE_ROOT, "su")] ∧
    goto_state next_hop_with_proxy_pc 6 UNIX_LOCAL UNIX_REMOTE_ROOT =
      UNIX_REMOTE_ROOT := by
  decide

/-- C9: for every start state and every pair of states `A`, `B` of the device,
the journey `goto_state(A); goto_state(B); goto_state(A)` ends at `A`, in both
hop configurations (over the without-proxy state set for that configuration). -/
theorem unixRemote2_goto_roundtrip :
    ∀ s A B : DevState,
      goto_state next_hop_with_proxy_pc 6
        (goto_state next_hop_with_proxy_pc 6
          (goto_state next_hop_with_proxy_pc 6 s A) B) A = A ∧
      (s ∈ without_proxy_states → A ∈ without_proxy_states →
        B ∈ without_proxy_states →
        goto_state next_hop_without_proxy_pc 6
          (goto_state next_hop_without_proxy_pc 6
            (goto_state next_hop_without_proxy_pc 6 s A) B) A = A) := by
  decide

/-- Witness for C9 at `s = UNIX_REMOTE`, `A = UNIX_LOCAL`, `B = UNIX_REMOTE_ROOT`. -/
theorem unixRemote2_goto_roundtrip_witness :
    UNIX_REMOTE ∈ without_proxy_states ∧
    UNIX_LOCAL ∈ without_proxy_states ∧
    UNIX_REMOTE_ROOT ∈ without_proxy_states ∧
    goto_state next_hop_without_proxy_pc 6
      (goto_state next_hop_without_proxy_pc 6
        (goto_state next_hop_without_proxy_pc 6 UNIX_REMOTE UNIX_LOCAL)
        UNIX_REMOTE_ROOT) UNIX_LOCAL = UNIX_LOCAL :=
  ⟨by decide, by decide, by decide,
    (unixRemote2_goto_roundtrip UNIX_REMOTE UNIX_LOCAL UNIX_REMOTE_ROOT).2
      (by decide) (by decide) (by decide)⟩

/-- C10: a `UnixRemote2` constructed without an explicit initial state defaults
to `UNIX_REMOTE`, and moving the freshly created device (at `NOT_CONNECTED`)
to that initial state leaves it in `UNIX_REMOTE`. -/
theorem unixRemote2_default_initial_state :
    unixRemote2_initial_state none = UNIX_REMOTE ∧
    goto_state next_hop_with_proxy_pc 6 NOT_CONNECTED
      (unixRemote2_initial_state none) = UNIX_REMOTE := by
  decide

/-- C2: feeding the S2 chunk sequence to a Sudo wrapping a Pwd, the inner
Pwd's `on_new_line` is called exactly with `("/home/user/moler", false)`,
`("/home/user/moler", true)`, `("ute@debdev:~/moler$", false)` — the
`[sudo]` password line is never forwarded — and the final result is
`{current_path: moler, full_path: /home/user/moler,
path_to_current: /home/user}`. -/
theorem sudo_forwards_nonsudo_data_into_embedded_command :
    (run_sudo fresh_pwd s2_chunks).sudo_st.pwd.on_new_line_calls =
      [("/home/user/moler", false), ("/home/user/moler", true),
       ("ute@debdev:~/moler$", false)] ∧
    (run_sudo fresh_pwd s2_chunks).sudo_st.slot =
      some (CmdOutcome.value (some s2_expected_result)) := by
  decide

/-- C5: a full output line matching the configured failure-indication pattern
makes `GenericUnix.on_new_line` record a `CommandFailure` on the observer's
slot; in particular a Sudo wrapping a Pwd that receives the S3 output
(`sudo: pwd: command not found` followed by the prompt) completes with a
command failure, not a result. -/
theorem genericunix_failure_line_causes_command_failure :
    (∀ (st : PwdState) (line : String), st.slot = none →
      is_failure_indication line = true →
      (pwd_on_new_line st line true).slot =
        some (CmdOutcome.failure ("command failed in line " ++ line))) ∧
    (run_sudo fresh_pwd [s3_output]).sudo_st.slot =
      some (CmdOutcome.failure
        "command failed in line sudo: pwd: command not found") := by
  constructor
  · intro st line h hf
    unfold pwd_on_new_line
    cases hp : parse_pwd_line line <;>
      simp [hp, hf, h, cmd_set_exception, cmd_set_result]
  · decide

/-- Witness for C5 at the concrete failing line of scenario S3. -/
theorem genericunix_failure_line_causes_command_failure_witness :
    fresh_pwd.slot = none ∧
    is_failure_indication "sudo: pwd: command not found" = true ∧
    (pwd_on_new_line fresh_pwd "sudo: pwd: command not found" true).slot =
      some (CmdOutcome.failure
        "command failed in line sudo: pwd: command not found") :=
  ⟨rfl, by decide,
    genericunix_failure_line_causes_command_failure.1 fresh_pwd
      "sudo: pwd: command not found" rfl (by decide)⟩

/-- C6: after the S2 run the embedded Pwd has completed with the expected
result; constructing a new Sudo around that same completed Pwd and running it
fails with a command failure, and does so before producing a result — nothing
further is forwarded to the embedded command. -/
theorem sudo_rejects_completed_embedded_command :
    s2_completed_pwd.slot = some (CmdOutcome.value (some s2_expected_result)) ∧
    (run_sudo s2_completed_pwd s2_chunks).sudo_st.slot =
      some (CmdOutcome.failure
        "Not allowed to run again the embedded command (embedded command is done)") ∧
    (run_sudo s2_completed_pwd s2_chunks).sudo_st.pwd.on_new_line_calls =
      s2_completed_pwd.on_new_line_calls := by
  decide

/-- C7: a device over ssh-shell io with `initial_state = UNIX_LOCAL` fails
synchronously at construction with a configuration error whose message
states that the device has no UNIX_LOCAL/UNIX_LOCAL_ROOT states, names the
io, and says io of type terminal is needed for unix-local states; with a
terminal io the same initial state is accepted. -/
theorem sshshell_rejects_unix_local_initial_state :
    validate_initial_state "sshshell" "ThreadedSshShell" "UX_REMOTE" "UNIX_LOCAL" =
      Except.error sshshell_unix_local_error_msg ∧
    contains_text sshshell_unix_local_error_msg
      "has no UNIX_LOCAL/UNIX_LOCAL_ROOT states" = true ∧
    contains_text sshshell_unix_local_error_msg
      "since it uses following io: ThreadedSshShell" = true ∧
    contains_text sshshell_unix_local_error_msg
      "You need io of type \"terminal\" to have unix-local states" = true ∧
    validate_initial_state "terminal" "ThreadedTerminal" "UX_REMOTE" "UNIX_LOCAL" =
      Except.ok () := by
  refine ⟨rfl, by decide, by decide, by decide, rfl⟩

/-- C8: the per-state prompt of every state configured by `UnixRemote2`
equals the `expected_prompt` of each edge landing in that state, and the
per-state newline equals the `target_newline` of each such edge, for every
user-supplied prompt, in both configurations. In particular, after
`_configure_state_machine`, the prompt on the
`UNIX_REMOTE_ROOT -> UNIX_REMOTE` edge agrees with the prompt of the other
edge landing in `UNIX_REMOTE`. -/
theorem unixRemote2_state_prompts_and_newlines_derived :
    ∀ p q w : String,
      (state_prompt_with_proxy (effective_config_with_proxy p q) UNIX_REMOTE =
          (effective_config_with_proxy p q).proxy_to_remote.expected_prompt ∧
        state_prompt_with_proxy (effective_config_with_proxy p q) UNIX_REMOTE =
          (effective_config_with_proxy p q).root_to_remote.expected_prompt ∧
        state_prompt_with_proxy (effective_config_with_proxy p q) UNIX_REMOTE_ROOT =
          (effective_config_with_proxy p q).remote_to_root.expected_prompt ∧
        newline_char_with_proxy (effective_config_with_proxy p q) UNIX_REMOTE =
          some (effective_config_with_proxy p q).proxy_to_remote.target_newline ∧
        newline_char_with_proxy (effective_config_with_proxy p q) UNIX_REMOTE =
          some (effective_config_with_proxy p q).root_to_remote.target_newline ∧
        newline_char_with_proxy (effective_config_with_proxy p q) UNIX_REMOTE_ROOT =
          some (effective_config_with_proxy p q).remote_to_root.target_newline) ∧
      (state_prompt_without_proxy (effective_config_without_proxy w) UNIX_REMOTE =
          (effective_config_without_proxy w).local_to_remote.expected_prompt ∧
        state_prompt_without_proxy (effective_config_without_proxy w) UNIX_REMOTE =
          (effective_config_without_proxy w).root_to_remote.expected_prompt ∧
        state_prompt_without_proxy (effective_config_without_proxy w) UNIX_LOCAL =
          (effective_config_without_proxy w).remote_to_local.expected_prompt ∧
        state_prompt_without_proxy (effective_config_without_proxy w) UNIX_REMOTE_ROOT =
          (effective_config_without_proxy w).remote_to_root.expected_prompt ∧
        newline_char_without_proxy (effective_config_without_proxy w) UNIX_REMOTE =
          some (effective_config_without_proxy w).local_to_remote.target_newline ∧
        newline_char_without_proxy (effective_config_without_proxy w) UNIX_REMOTE =
          some (effective_config_without_proxy w).root_to_remote.target_newline ∧
        newline_char_without_proxy (effective_config_without_proxy w) UNIX_LOCAL =
          some (effective_config_without_proxy w).remote_to_local.target_newline ∧
        newline_char_without_proxy (effective_config_without_proxy w) UNIX_REMOTE_ROOT =
          some (effective_config_without_proxy w).remote_to_root.target_newline) :=
  fun _ _ _ =>
    ⟨⟨rfl, rfl, rfl, rfl, rfl, rfl⟩, ⟨rfl, rfl, rfl, rfl, rfl, rfl, rfl, rfl⟩⟩

end Moler
